import Mathlib

/-!
# Verification of the korean-crypto-mcp alert core

Shallow embedding of the alert-monitoring core of `src/main.py`:
the kimchi-premium computation (`get_kimchi_premium`, `_get_kimchi_pct`),
the cooldown gate (`_can_alert`), the Telegram sink (`send_telegram`),
the startup configuration constants, and one tick of `monitor_loop`.

Modelling conventions:
* Prices, FX rates, premiums and timestamps are rationals (`ℚ`); timestamps
  are seconds, cooldowns are minutes, matching
  `(datetime.now() - last).total_seconds() / 60 >= cooldown_minutes`.
* Network effects are oracle parameters: a fetch that may raise is an
  `Option` value (`none` = exception / non-success), the Telegram POST is an
  `HttpResult`.  Python `try/except` blocks become `match` on those options.
* The global dict `_last_alert` is an association list with first-match
  lookup; assignment prepends, which has the same lookup semantics.
-/

namespace KoreanCrypto

/-- Python `str.upper()` as the source uses it (ASCII coin symbols). -/
def pyUpper (s : String) : String :=
  ⟨s.data.map Char.toUpper⟩

/-- Python `str.strip()`: drop whitespace from both ends. -/
def pyStrip (s : String) : String :=
  ⟨((s.data.dropWhile (fun c => c.isWhitespace)).reverse.dropWhile
      (fun c => c.isWhitespace)).reverse⟩

/-- The `COINGECKO_IDS` static mapping table of `src/main.py`. -/
def coingeckoIds : List (String × String) :=
  [("BTC", "bitcoin"), ("ETH", "ethereum"), ("XRP", "ripple"),
   ("SOL", "solana"), ("ADA", "cardano"), ("DOGE", "dogecoin"),
   ("AVAX", "avalanche-2"), ("DOT", "polkadot"), ("MATIC", "matic-network"),
   ("LINK", "chainlink"), ("UNI", "uniswap"), ("ATOM", "cosmos"),
   ("LTC", "litecoin"), ("BCH", "bitcoin-cash"), ("ETC", "ethereum-classic"),
   ("NEAR", "near"), ("APT", "aptos"), ("ARB", "arbitrum"),
   ("OP", "optimism"), ("SUI", "sui"), ("TRX", "tron"),
   ("SHIB", "shiba-inu"), ("PEPE", "pepe"), ("BNB", "binancecoin"),
   ("TON", "the-open-network"), ("STX", "blockstack"),
   ("SAND", "the-sandbox"), ("MANA", "decentraland")]

/-- The `_last_alert` dict: alert key (e.g. `"BTC_high"`) to the timestamp
(seconds) of the last successful notification. -/
abbrev CooldownState := List (String × ℚ)

/-- Embedding of `_last_alert.get(key)` — first-match lookup. -/
def getLast (st : CooldownState) (key : String) : Option ℚ :=
  st.lookup key

/-- Embedding of `_last_alert[key] = now` — dict assignment, modelled as a prepend
(first-match lookup makes this observationally the same). -/
def setLast (st : CooldownState) (key : String) (t : ℚ) : CooldownState :=
  (key, t) :: st

/-- Embedding of `_can_alert(key, cooldown_minutes)` (src/main.py lines 78-82):
eligible when the key was never alerted, or when at least
`cooldown_minutes` minutes have elapsed since the recorded timestamp. -/
def canAlert (st : CooldownState) (key : String) (now : ℚ)
    (cooldownMinutes : ℚ) : Bool :=
  match getLast st key with
  | none => true
  | some last => decide (cooldownMinutes ≤ (now - last) / 60)

/-- Outcome of the Telegram POST in `send_telegram`: an HTTP status code, or
a transport exception. -/
inductive HttpResult
  | status (code : ℕ)
  | exn
deriving DecidableEq, Repr

/-- Embedding of `send_telegram(message)` (src/main.py lines 62-75).  First component:
the returned boolean.  Second component: whether an outbound request was
issued at all (the guard `if not TG_TOKEN or not TG_CHAT_ID` returns early).
The `post` oracle is the outcome of the one outbound call. -/
def sendTelegram (tgToken tgChatId : String) (post : HttpResult) :
    Bool × Bool :=
  if tgToken = "" ∨ tgChatId = "" then (false, false)
  else
    match post with
    | .status code => (decide (code = 200), true)
    | .exn => (false, true)

/-- Alert direction: the `pct >= ALERT_KIMCHI_HIGH` branch or the
`pct <= ALERT_KIMCHI_LOW` branch of `monitor_loop`. -/
inductive Direction
  | high
  | low
deriving DecidableEq, Repr

/-- The alert key `f"{coin}_high"` / `f"{coin}_low"`. -/
def alertKey (coin : String) : Direction → String
  | .high => coin ++ "_high"
  | .low => coin ++ "_low"

/-- The threshold-plus-cooldown decision of one `monitor_loop` body for one
coin, with the cooldown window exposed as the parameter `_can_alert` takes:
`if pct >= high` then the high key is a candidate, `elif pct <= low` the low
key is, else no action; a candidate fires only if `canAlert` passes. -/
def evaluate (high low cooldown : ℚ) (st : CooldownState) (now : ℚ)
    (coin : String) (pct : ℚ) : Option Direction :=
  if high ≤ pct then
    if canAlert st (alertKey coin .high) now cooldown then some .high
    else none
  else if pct ≤ low then
    if canAlert st (alertKey coin .low) now cooldown then some .low
    else none
  else none

/-- The branch condition of `monitor_loop` that makes `d` the candidate
direction: `pct >= ALERT_KIMCHI_HIGH` for high, and (because of the `elif`)
`pct < ALERT_KIMCHI_HIGH and pct <= ALERT_KIMCHI_LOW` for low. -/
def crosses (high low pct : ℚ) : Direction → Prop
  | .high => high ≤ pct
  | .low => pct < high ∧ pct ≤ low

/-- The decision exactly as `monitor_loop` makes it: it calls
`_can_alert(key)` with the defaulted `cooldown_minutes = 60`. -/
def evalAlert (high low : ℚ) (st : CooldownState) (now : ℚ)
    (coin : String) (pct : ℚ) : Option Direction :=
  evaluate high low 60 st now coin pct

/-- Per-call-site results of the network fetches `_get_kimchi_pct` makes
(`none` = the call raised or returned a bad shape). -/
structure MonitorFetch where
  upbit : Option ℚ
  cg : Option ℚ
  fx : Option ℚ
deriving DecidableEq, Repr

/-- Embedding of `_get_kimchi_pct(coin)` (src/main.py lines 240-258): upper-case the
coin, fetch the Upbit price, look the coin up in `COINGECKO_IDS`
(returning `None` when absent — no fallback search on this path), fetch the
CoinGecko USD price, fetch the FX rate falling back to `1350.0` on failure,
and return the premium percentage.  The outer `try/except` turns any failure
into `None`, which the `Option` plumbing reproduces. -/
def getKimchiPct (coin0 : String) (f : MonitorFetch) : Option ℚ :=
  let coin := pyUpper coin0
  match f.upbit with
  | none => none
  | some krwPrice =>
    match coingeckoIds.lookup coin with
    | none => none
    | some _ =>
      match f.cg with
      | none => none
      | some usdPrice =>
        let usdKrw := f.fx.getD 1350
        some ((krwPrice - usdPrice * usdKrw) / (usdPrice * usdKrw) * 100)

/-- The premium formula as `_get_kimchi_pct` line 256 writes it. -/
def kimchiPct (krwPrice usdPrice usdKrw : ℚ) : ℚ :=
  (krwPrice - usdPrice * usdKrw) / (usdPrice * usdKrw) * 100

/-- The premium formula as `get_kimchi_premium` lines 174-175 write it
(via the intermediate `krw_equiv`). -/
def kimchiPctOnDemand (krwPrice usdPrice usdKrw : ℚ) : ℚ :=
  let krwEquiv := usdPrice * usdKrw
  (krwPrice - krwEquiv) / krwEquiv * 100

/-- Per-call-site results of the network fetches `get_kimchi_premium`
makes; `search` is the `coins` list of the CoinGecko `/search` response
(list of ids, `none` = the search raised). -/
structure OnDemandFetch where
  upbit : Option ℚ
  search : Option (List String)
  cg : Option ℚ
  fx : Option ℚ
deriving DecidableEq, Repr

/-- Distinguishable outcomes of `get_kimchi_premium`: the premium report
(carrying the numbers the report text is rendered from), the three
user-facing error messages, or an exception escaping to the framework
(only the unguarded Upbit fetch can raise out of the function). -/
inductive ODOutcome
  | exn
  | notFoundMsg
  | searchErrorMsg
  | priceErrorMsg
  | premium (krwPrice usdPrice usdKrw pct : ℚ)
deriving DecidableEq, Repr

/-- Embedding of `get_kimchi_premium(coin)` (src/main.py lines 143-189): upper-case,
fetch the Upbit price (unguarded), resolve the CoinGecko id from the static
table with a fallback `/search` taking the first match (`notFoundMsg` when
the search result list is empty, `searchErrorMsg` when the search raised),
fetch the USD price (`priceErrorMsg` on failure), fetch the FX rate falling
back to `1350.0`, and build the report. -/
def getKimchiPremium (coin0 : String) (f : OnDemandFetch) : ODOutcome :=
  let coin := pyUpper coin0
  match f.upbit with
  | none => .exn
  | some krwPrice =>
    let resolved : Except ODOutcome String :=
      match coingeckoIds.lookup coin with
      | some cgId => .ok cgId
      | none =>
        match f.search with
        | none => .error .searchErrorMsg
        | some [] => .error .notFoundMsg
        | some (c :: _) => .ok c
    match resolved with
    | .error e => e
    | .ok _ =>
      match f.cg with
      | none => .priceErrorMsg
      | some usdPrice =>
        let usdKrw := f.fx.getD 1350
        .premium krwPrice usdPrice usdKrw
          ((krwPrice - usdPrice * usdKrw) / (usdPrice * usdKrw) * 100)

/-- Body of one coin inside the `while True` of `monitor_loop`
(src/main.py lines 266-296), after the premium was computed: decide with
`evalAlert`, send the Telegram message when due (recorded in the returned
list), and update `_last_alert[key]` only when `send_telegram` returned
true.  `deliver` is the delivery oracle, keyed by the alert key. -/
def stepCoin (high low : ℚ) (deliver : String → Bool) (now : ℚ)
    (st : CooldownState) (pct : Option ℚ) (coin : String) :
    CooldownState × List (String × Direction) :=
  match pct with
  | none => (st, [])
  | some p =>
    match evalAlert high low st now coin p with
    | none => (st, [])
    | some d =>
      let key := alertKey coin d
      if deliver key then (setLast st key now, [(key, d)])
      else (st, [(key, d)])

/-- One full iteration of `monitor_loop` over the watched coin list:
strip-and-uppercase each entry, compute its premium via `_get_kimchi_pct`
(`continue` on `None`), and run the alert body.  Returns the final cooldown
state and the alert messages attempted, in order. -/
def monitorTick (high low : ℚ) (fetch : String → MonitorFetch)
    (deliver : String → Bool) (now : ℚ) (st : CooldownState) :
    List String → CooldownState × List (String × Direction)
  | [] => (st, [])
  | coin0 :: rest =>
    let coin := pyUpper (pyStrip coin0)
    let r := stepCoin high low deliver now st
      (getKimchiPct coin (fetch coin)) coin
    let r2 := monitorTick high low fetch deliver now r.1 rest
    (r2.1, r.2 ++ r2.2)

/-- The environment variables the module reads at import time (src/main.py
lines 29-33), already parsed; `none` = variable unset, so the `os.environ.get`
default applies.  `alertCooldownMin` is carried so that the spec claim that the
cooldown window is environment-sourced can be stated; no code path reads it. -/
structure Env where
  alertKimchiHigh : Option ℚ
  alertKimchiLow : Option ℚ
  alertCoins : Option (List String)
  alertIntervalMin : Option ℕ
  alertCooldownMin : Option ℚ
deriving DecidableEq, Repr

/-- The startup configuration constants `ALERT_KIMCHI_HIGH`,
`ALERT_KIMCHI_LOW`, `ALERT_COINS`, `ALERT_INTERVAL_MIN` with their
code defaults `3.0`, `-1.0`, `"BTC,ETH,XRP"`, `5`.  The code defines no
cooldown constant: `Config` has no cooldown field. -/
structure Config where
  high : ℚ
  low : ℚ
  coins : List String
  intervalMin : ℕ
deriving DecidableEq, Repr

/-- Loading the configuration from the environment, exactly the four
`os.environ.get` reads of src/main.py lines 30-33. -/
def loadConfig (e : Env) : Config :=
  ⟨e.alertKimchiHigh.getD 3, e.alertKimchiLow.getD (-1),
   e.alertCoins.getD ["BTC", "ETH", "XRP"], e.alertIntervalMin.getD 5⟩

/-- Modelled from the spec: the configuration surface of the spec says the
cooldown window is sourced from environment/config at startup, with the
documented default of 60 minutes.  No such read exists in src/main.py;
this definition follows the words of the spec, for comparison. -/
def specCooldownMinutes (e : Env) : ℚ :=
  e.alertCooldownMin.getD 60

/-- Modelled from the spec: the Premium Calculator of the spec resolves the
symbol via the static table and, when absent, performs a fallback search
taking the first match, failing only when the search yields no match —
including when invoked by the Monitor Loop.  The monitor path of src/main.py,
`_get_kimchi_pct`, has no such search; this definition follows the words of the spec,
words for comparison. -/
def getKimchiPctSpec (coin0 : String) (search : Option (List String))
    (f : MonitorFetch) : Option ℚ :=
  let coin := pyUpper coin0
  match f.upbit with
  | none => none
  | some krwPrice =>
    let resolved : Option String :=
      match coingeckoIds.lookup coin with
      | some cgId => some cgId
      | none =>
        match search with
        | some (c :: _) => some c
        | _ => none
    match resolved with
    | none => none
    | some _ =>
      match f.cg with
      | none => none
      | some usdPrice =>
        let usdKrw := f.fx.getD 1350
        some ((krwPrice - usdPrice * usdKrw) / (usdPrice * usdKrw) * 100)

/-! ## Helper lemmas -/

theorem canAlert_of_getLast_none {st : CooldownState} {key : String}
    {now c : ℚ} (h : getLast st key = none) :
    canAlert st key now c = true := by
  simp [canAlert, h]

theorem canAlert_eq_true_iff {st : CooldownState} {key : String}
    {now c T : ℚ} (h : getLast st key = some T) :
    canAlert st key now c = true ↔ T + 60 * c ≤ now := by
  simp only [canAlert, h, decide_eq_true_eq]
  rw [le_div_iff₀ (by norm_num : (0 : ℚ) < 60)]
  constructor <;> intro h2 <;> linarith

theorem canAlert_eq_false_of_lt {st : CooldownState} {key : String}
    {now c T : ℚ} (h : getLast st key = some T) (hlt : now < T + 60 * c) :
    canAlert st key now c = false := by
  rw [Bool.eq_false_iff]
  intro htrue
  rw [canAlert_eq_true_iff h] at htrue
  linarith

/-! ## Claims -/

/-- C2: for a key last successfully notified at time `T` and cooldown
window `c` (minutes), an evaluation strictly before `T + c` minutes never
fires that key whatever the premium is; at `T + c` minutes or later a
threshold-crossing premium fires it again; a key with no recorded
notification always passes the cooldown gate. -/
theorem cooldown_gate_spec (high low c : ℚ) (st : CooldownState)
    (now T pct : ℚ) (coin : String) (d : Direction) :
    (getLast st (alertKey coin d) = some T → now < T + 60 * c →
      evaluate high low c st now coin pct ≠ some d) ∧
    (getLast st (alertKey coin d) = some T → T + 60 * c ≤ now →
      crosses high low pct d → evaluate high low c st now coin pct = some d) ∧
    (getLast st (alertKey coin d) = none →
      canAlert st (alertKey coin d) now c = true) := by
  refine ⟨fun h hlt => ?_, fun h hge hc => ?_, fun h => canAlert_of_getLast_none h⟩
  · have hfalse := canAlert_eq_false_of_lt h hlt
    cases d with
    | high =>
      by_cases hh : high ≤ pct
      · simp [evaluate, hh, hfalse]
      · by_cases hl : pct ≤ low
        · simp only [evaluate, hh, if_false, hl, if_true]
          split <;> simp
        · simp [evaluate, hh, hl]
    | low =>
      by_cases hh : high ≤ pct
      · simp only [evaluate, hh, if_true]
        split <;> simp
      · by_cases hl : pct ≤ low
        · simp [evaluate, hh, hl, hfalse]
        · simp [evaluate, hh, hl]
  · have htrue := (canAlert_eq_true_iff h).mpr hge
    cases d with
    | high =>
      simp only [crosses] at hc
      simp [evaluate, hc, htrue]
    | low =>
      simp only [crosses] at hc
      have hh : ¬ high ≤ pct := not_le.mpr hc.1
      simp [evaluate, hh, hc.2, htrue]

/-- Witness for C2 at a concrete input: key `BTC_high` notified at `T = 0`,
cooldown 60 minutes; at 3599 seconds the key does not fire despite a 100%
premium, at 3600 seconds it fires again. -/
theorem cooldown_gate_spec_witness :
    evaluate 3 (-1) 60 [("BTC_high", 0)] 3599 "BTC" 100 ≠ some .high ∧
    evaluate 3 (-1) 60 [("BTC_high", 0)] 3600 "BTC" 100 = some .high :=
  ⟨(cooldown_gate_spec 3 (-1) 60 [("BTC_high", 0)] 3599 0 100 "BTC" .high).1
      (by decide) (by norm_num),
   (cooldown_gate_spec 3 (-1) 60 [("BTC_high", 0)] 3600 0 100 "BTC" .high).2.1
      (by decide) (by norm_num) (by norm_num [crosses])⟩

/-- C5: the premium is exactly `((d - r*f) / (r*f)) * 100`, the on-demand
path (`get_kimchi_premium`) and the monitor path (`_get_kimchi_pct`)
compute the same formula, and for positive converted price `r*f` the
premium is positive iff the domestic price exceeds `r*f`. -/
theorem premium_formula_and_sign (d r f : ℚ) :
    kimchiPct d r f = (d - r * f) / (r * f) * 100 ∧
    kimchiPctOnDemand d r f = kimchiPct d r f ∧
    (0 < r * f → (0 < kimchiPct d r f ↔ r * f < d)) := by
  refine ⟨rfl, rfl, fun h => ?_⟩
  unfold kimchiPct
  rw [div_mul_eq_mul_div, lt_div_iff₀ h]
  constructor <;> intro h2 <;> nlinarith

/-- Witness for C5 at `d = 2`, `r = 1`, `f = 1`. -/
theorem premium_formula_and_sign_witness :
    0 < (1 : ℚ) * 1 ∧ (0 < kimchiPct 2 1 1 ↔ (1 : ℚ) * 1 < 2) :=
  ⟨by norm_num, (premium_formula_and_sign 2 1 1).2.2 (by norm_num)⟩

/-- C10: `send_telegram` returns a boolean and never raises; with an empty
bot token or chat id it returns false without issuing the outbound request,
otherwise it issues the request and returns true exactly when the response
status is 200 (false on any other status and on a transport exception). -/
theorem send_telegram_contract (tok chat : String) (post : HttpResult) :
    (tok = "" ∨ chat = "" → sendTelegram tok chat post = (false, false)) ∧
    (tok ≠ "" → chat ≠ "" →
      (sendTelegram tok chat post).2 = true ∧
      ((sendTelegram tok chat post).1 = true ↔ post = .status 200)) := by
  refine ⟨fun h => ?_, fun h1 h2 => ?_⟩
  · unfold sendTelegram
    rw [if_pos h]
  · have hc : ¬ (tok = "" ∨ chat = "") := by tauto
    cases post with
    | status code => simp [sendTelegram, hc]
    | exn => simp [sendTelegram, hc]

/-- Witness for C10: with nonempty credentials and a 200 response the
result is true; with an empty token nothing is sent and the result is
false. -/
theorem send_telegram_contract_witness :
    (sendTelegram "token" "chat" (.status 200)).1 = true ∧
    sendTelegram "" "chat" (.status 200) = (false, false) :=
  ⟨((send_telegram_contract "token" "chat" (.status 200)).2
      (by decide) (by decide)).2.mpr rfl,
   (send_telegram_contract "" "chat" (.status 200)).1 (Or.inl rfl)⟩

/-- C3: when the coin resolves (static table hit, or — on the on-demand
path — a fallback search match) and the price sources answer, an FX-fetch
failure does not produce an error: both paths return a premium computed
with the hardcoded default rate `1350.0`. -/
theorem fx_fallback_degrades (coin : String) (f : OnDemandFetch)
    (mf : MonitorFetch) (krw usd : ℚ)
    (hu : f.upbit = some krw) (hc : f.cg = some usd) (hx : f.fx = none)
    (hmu : mf.upbit = some krw) (hmc : mf.cg = some usd)
    (hmx : mf.fx = none) :
    ((coingeckoIds.lookup (pyUpper coin)).isSome = true ∨
        (coingeckoIds.lookup (pyUpper coin) = none ∧
          ∃ i rest, f.search = some (i :: rest)) →
      getKimchiPremium coin f =
        .premium krw usd 1350 (kimchiPct krw usd 1350)) ∧
    ((coingeckoIds.lookup (pyUpper coin)).isSome = true →
      getKimchiPct coin mf = some (kimchiPct krw usd 1350)) := by
  constructor
  · intro hres
    rcases hres with hsome | ⟨hnone, i, rest, hs⟩
    · obtain ⟨cgId, hlk⟩ := Option.isSome_iff_exists.mp hsome
      simp [getKimchiPremium, hu, hc, hx, hlk, kimchiPct]
    · simp [getKimchiPremium, hu, hc, hx, hnone, hs, kimchiPct]
  · intro hsome
    obtain ⟨cgId, hlk⟩ := Option.isSome_iff_exists.mp hsome
    simp [getKimchiPct, hmu, hmc, hmx, hlk, kimchiPct]

/-- Witness for C3 at coin `BTC` with both price sources answering and the
FX fetch failing on both paths. -/
theorem fx_fallback_degrades_witness :
    getKimchiPremium "BTC" ⟨some 100, none, some 1, none⟩ =
      .premium 100 1 1350 (kimchiPct 100 1 1350) ∧
    getKimchiPct "BTC" ⟨some 100, some 1, none⟩ =
      some (kimchiPct 100 1 1350) := by
  have h := fx_fallback_degrades "BTC" ⟨some 100, none, some 1, none⟩
    ⟨some 100, some 1, none⟩ 100 1 rfl rfl rfl rfl rfl rfl
  exact ⟨h.1 (Or.inl (by decide)), h.2 (by decide)⟩

/-- C4: with domestic price 100,000,000, reference price 70,000 and FX rate
1,350 the converted price is 94,500,000 and the premium is
`1100/189 ≈ 5.82%`; under the default configuration (high threshold 3.0)
and an empty cooldown state the first evaluation fires the high
direction. -/
theorem default_btc_example :
    (70000 : ℚ) * 1350 = 94500000 ∧
    kimchiPct 100000000 70000 1350 = 1100 / 189 ∧
    582 / 100 ≤ kimchiPct 100000000 70000 1350 ∧
    kimchiPct 100000000 70000 1350 < 583 / 100 ∧
    loadConfig ⟨none, none, none, none, none⟩ =
      ⟨3, -1, ["BTC", "ETH", "XRP"], 5⟩ ∧
    evalAlert (loadConfig ⟨none, none, none, none, none⟩).high
      (loadConfig ⟨none, none, none, none, none⟩).low
      [] 0 "BTC" (kimchiPct 100000000 70000 1350) = some .high := by
  refine ⟨by norm_num, by norm_num [kimchiPct], by norm_num [kimchiPct],
    by norm_num [kimchiPct], rfl, ?_⟩
  norm_num [evalAlert, evaluate, canAlert, getLast, alertKey, kimchiPct,
    loadConfig]

/-- C1: in a monitor tick, the cooldown timestamp for a key moves to the
current time only when the delivery reported success; when delivery fails
the state is untouched and an immediate re-evaluation with the same premium
still finds the same alert due. -/
theorem cooldown_update_iff_delivery (high low : ℚ)
    (deliver : String → Bool) (now : ℚ) (st : CooldownState)
    (coin : String) (pct : ℚ) :
    ((stepCoin high low deliver now st (some pct) coin).1 ≠ st →
      ∃ d, evalAlert high low st now coin pct = some d ∧
        deliver (alertKey coin d) = true) ∧
    (∀ d, evalAlert high low st now coin pct = some d →
      (deliver (alertKey coin d) = true →
        (stepCoin high low deliver now st (some pct) coin).1 =
          setLast st (alertKey coin d) now ∧
        getLast (stepCoin high low deliver now st (some pct) coin).1
          (alertKey coin d) = some now) ∧
      (deliver (alertKey coin d) = false →
        (stepCoin high low deliver now st (some pct) coin).1 = st ∧
        evalAlert high low
          (stepCoin high low deliver now st (some pct) coin).1
          now coin pct = some d)) := by
  constructor
  · intro hne
    rcases hev : evalAlert high low st now coin pct with _ | d
    · exact absurd (by simp [stepCoin, hev]) hne
    · cases hdel : deliver (alertKey coin d) with
      | false => exact absurd (by simp [stepCoin, hev, hdel]) hne
      | true => exact ⟨d, rfl, hdel⟩
  · intro d hev
    constructor
    · intro hdel
      refine ⟨by simp [stepCoin, hev, hdel], ?_⟩
      simp [stepCoin, hev, hdel, setLast, getLast, List.lookup]
    · intro hdel
      have h1 : (stepCoin high low deliver now st (some pct) coin).1 = st :=
        by simp [stepCoin, hev, hdel]
      exact ⟨h1, by rw [h1]; exact hev⟩

/-- Witness for C1: with a delivery oracle that always fails, the state
stays empty and the high alert for `BTC` is still due on re-evaluation. -/
theorem cooldown_update_iff_delivery_witness :
    (stepCoin 3 (-1) (fun _ => false) 0 [] (some 100) "BTC").1 = [] ∧
    evalAlert 3 (-1)
      (stepCoin 3 (-1) (fun _ => false) 0 [] (some 100) "BTC").1
      0 "BTC" 100 = some .high :=
  ((cooldown_update_iff_delivery 3 (-1) (fun _ => false) 0 [] "BTC" 100).2
    .high (by norm_num [evalAlert, evaluate, canAlert, getLast, alertKey])).2
    rfl

/-- C7: one evaluation of one symbol never sends both a high-direction and
a low-direction alert, for any premium and any thresholds (the low branch
is an `elif`). -/
theorem no_double_fire (high low : ℚ) (deliver : String → Bool) (now : ℚ)
    (st : CooldownState) (pct : Option ℚ) (coin : String) :
    (((stepCoin high low deliver now st pct coin).2.any
        (fun a => a.2 == Direction.high)) &&
      ((stepCoin high low deliver now st pct coin).2.any
        (fun a => a.2 == Direction.low))) = false := by
  rcases pct with _ | p
  · rfl
  · rcases hev : evalAlert high low st now coin p with _ | d
    · simp [stepCoin, hev]
    · cases hdel : deliver (alertKey coin d) <;> cases d <;>
        simp [stepCoin, hev, hdel]

/-- Helper: a coin whose premium computation fails contributes nothing to a
monitor tick — the tick equals the tick on the list without that coin. -/
theorem monitorTick_skip_of_none (high low : ℚ)
    (fetch : String → MonitorFetch) (deliver : String → Bool) (now : ℚ)
    (coin0 : String)
    (h : getKimchiPct (pyUpper (pyStrip coin0))
      (fetch (pyUpper (pyStrip coin0))) = none)
    (xs ys : List String) (st : CooldownState) :
    monitorTick high low fetch deliver now st (xs ++ coin0 :: ys) =
      monitorTick high low fetch deliver now st (xs ++ ys) := by
  induction xs generalizing st with
  | nil => simp [monitorTick, stepCoin, h]
  | cons x xs ih => simp [monitorTick, ih]

/-- C9: symbols are processed independently: a symbol whose premium
computation fails (`_get_kimchi_pct` returns `None`, covering unresolvable
mappings, unavailable upstreams and any exception) is skipped with no alert
and no state change, while all other symbols of the tick are processed
exactly as if the failing symbol were absent; the tick is a total function,
so no such failure terminates the loop. -/
theorem monitor_symbol_isolation (high low : ℚ)
    (fetch : String → MonitorFetch) (deliver : String → Bool) (now : ℚ)
    (coin0 : String)
    (h : getKimchiPct (pyUpper (pyStrip coin0))
      (fetch (pyUpper (pyStrip coin0))) = none)
    (xs ys : List String) (st : CooldownState) :
    monitorTick high low fetch deliver now st (xs ++ coin0 :: ys) =
      monitorTick high low fetch deliver now st (xs ++ ys) :=
  monitorTick_skip_of_none high low fetch deliver now coin0 h xs ys st

/-- Witness for C9: `ZZZZ` has no CoinGecko mapping, so its computation
fails; the tick over `BTC, ZZZZ, ETH` equals the tick over `BTC, ETH`. -/
theorem monitor_symbol_isolation_witness :
    monitorTick 3 (-1) (fun _ => ⟨some 100, some 1, some 1350⟩)
      (fun _ => true) 0 [] ["BTC", "ZZZZ", "ETH"] =
    monitorTick 3 (-1) (fun _ => ⟨some 100, some 1, some 1350⟩)
      (fun _ => true) 0 [] ["BTC", "ETH"] :=
  monitor_symbol_isolation 3 (-1) (fun _ => ⟨some 100, some 1, some 1350⟩)
    (fun _ => true) 0 "ZZZZ" (by decide) ["BTC"] ["ETH"] []

/-- C6 counterexample: for the unmapped symbol `ZZZZ`, with all price
sources reachable and a fallback search that would yield a first match,
the monitor-path computation `_get_kimchi_pct` still returns `None` — it
performs no fallback search — while the spec-modelled calculator (table,
then search, then first match) returns the premium. -/
theorem monitor_no_fallback_counterexample :
    getKimchiPct "ZZZZ" ⟨some 100000000, some 70000, some 1350⟩ = none ∧
    getKimchiPctSpec "ZZZZ" (some ["zzzz-id"])
      ⟨some 100000000, some 70000, some 1350⟩ =
      some (kimchiPct 100000000 70000 1350) := by
  have hlk : coingeckoIds.lookup (pyUpper "ZZZZ") = none := by decide
  exact ⟨by decide, by simp [getKimchiPctSpec, hlk, kimchiPct]⟩

/-- C6 amended: the on-demand computation (`get_kimchi_premium`) resolves
through the static table first (the search result is irrelevant on a table
hit), falls back to the search taking the first match, and returns the
not-found message only when the search yields no match; the monitor-path
computation (`_get_kimchi_pct`) performs no fallback search and fails
immediately (returns `None`) when the symbol is absent from the table; in
both cases the Monitor Loop continues to the next symbol without
throwing. -/
theorem resolution_paths_amended (coin : String) (f : OnDemandFetch)
    (mf : MonitorFetch) (high low : ℚ) (fetch : String → MonitorFetch)
    (deliver : String → Bool) (now : ℚ) (st : CooldownState)
    (coin0 : String) (xs ys : List String) :
    (∀ cgId s1 s2, coingeckoIds.lookup (pyUpper coin) = some cgId →
      getKimchiPremium coin ⟨f.upbit, s1, f.cg, f.fx⟩ =
        getKimchiPremium coin ⟨f.upbit, s2, f.cg, f.fx⟩) ∧
    (∀ krw usd i rest, coingeckoIds.lookup (pyUpper coin) = none →
      f.upbit = some krw → f.search = some (i :: rest) → f.cg = some usd →
      getKimchiPremium coin f = .premium krw usd (f.fx.getD 1350)
        (kimchiPct krw usd (f.fx.getD 1350))) ∧
    (∀ krw, coingeckoIds.lookup (pyUpper coin) = none →
      f.upbit = some krw → f.search = some [] →
      getKimchiPremium coin f = .notFoundMsg) ∧
    (coingeckoIds.lookup (pyUpper coin) = none →
      getKimchiPct coin mf = none) ∧
    (getKimchiPct (pyUpper (pyStrip coin0))
        (fetch (pyUpper (pyStrip coin0))) = none →
      monitorTick high low fetch deliver now st (xs ++ coin0 :: ys) =
        monitorTick high low fetch deliver now st (xs ++ ys)) := by
  refine ⟨?_, ?_, ?_, ?_, fun h =>
    monitorTick_skip_of_none high low fetch deliver now coin0 h xs ys st⟩
  · intro cgId s1 s2 hlk
    rcases hu : f.upbit with _ | krw <;> simp [getKimchiPremium, hu, hlk]
  · intro krw usd i rest hlk hu hs hc
    simp [getKimchiPremium, hlk, hu, hs, hc, kimchiPct]
  · intro krw hlk hu hs
    simp [getKimchiPremium, hlk, hu, hs]
  · intro hlk
    rcases hmu : mf.upbit with _ | krw <;> simp [getKimchiPct, hmu, hlk]

/-- Witness for the amended C6 at coin `ZZZZ`: empty search result gives
the not-found message on the on-demand path, and the monitor path returns
`None`. -/
theorem resolution_paths_amended_witness :
    getKimchiPremium "ZZZZ" ⟨some 100, some [], some 1, some 1350⟩ =
      .notFoundMsg ∧
    getKimchiPct "ZZZZ" ⟨some 100, some 1, some 1350⟩ = none :=
  ⟨(resolution_paths_amended "ZZZZ" ⟨some 100, some [], some 1, some 1350⟩
      ⟨some 100, some 1, some 1350⟩ 0 0 (fun _ => ⟨none, none, none⟩)
      (fun _ => true) 0 [] "X" [] []).2.2.1 100 (by decide) rfl rfl,
   (resolution_paths_amended "ZZZZ" ⟨some 100, some [], some 1, some 1350⟩
      ⟨some 100, some 1, some 1350⟩ 0 0 (fun _ => ⟨none, none, none⟩)
      (fun _ => true) 0 [] "X" [] []).2.2.2.1 (by decide)⟩

/-- C8 counterexample: the cooldown window is not environment-sourced.
With an environment configuring a 10-minute cooldown (as the spec-modelled
configuration surface would read it), a key last alerted 20 minutes ago is
eligible under the configured window, yet the monitor tick — which takes no
environment and hard-codes the 60-minute `_can_alert` default — attempts no
alert for a 5.82% premium. -/
theorem cooldown_not_configurable_counterexample :
    (monitorTick 3 (-1) (fun _ => ⟨some 100000000, some 70000, some 1350⟩)
        (fun _ => true) 1200 [("BTC_high", 0)] ["BTC"]).2 = [] ∧
    specCooldownMinutes ⟨none, none, none, none, some 10⟩ = 10 ∧
    canAlert [("BTC_high", 0)] "BTC_high" 1200
      (specCooldownMinutes ⟨none, none, none, none, some 10⟩) = true ∧
    canAlert [("BTC_high", 0)] "BTC_high" 1200 60 = false := by
  have hcoin : pyUpper (pyStrip "BTC") = "BTC" := by decide
  have hlk : coingeckoIds.lookup (pyUpper "BTC") = some "bitcoin" := by
    decide
  have hkey : alertKey "BTC" .high = "BTC_high" := by decide
  have hpct : getKimchiPct "BTC" ⟨some 100000000, some 70000, some 1350⟩ =
      some (1100 / 189) := by
    simp [getKimchiPct, hlk]
    norm_num
  refine ⟨?_, rfl, ?_, ?_⟩
  · simp [monitorTick, hcoin, hpct, stepCoin, evalAlert, evaluate, hkey,
      canAlert, getLast, List.lookup]
    norm_num
  · norm_num [canAlert, getLast, List.lookup, specCooldownMinutes]
  · norm_num [canAlert, getLast, List.lookup]

/-- C8 amended: the high/low thresholds, the watched-symbol list and the
poll interval are environment-sourced at startup (defaults 3.0, -1.0,
`BTC,ETH,XRP`, 5); the cooldown window is not part of that configuration —
configuration loading ignores any cooldown variable, and the monitor
eligibility decision instantiates the parametric gate at the hard-coded
60-minute default of `_can_alert`, independently of the interval. -/
theorem config_surface_amended (e : Env) (high low : ℚ)
    (st : CooldownState) (now : ℚ) (coin : String) (pct : ℚ) :
    loadConfig e = ⟨e.alertKimchiHigh.getD 3, e.alertKimchiLow.getD (-1),
      e.alertCoins.getD ["BTC", "ETH", "XRP"], e.alertIntervalMin.getD 5⟩ ∧
    loadConfig ⟨e.alertKimchiHigh, e.alertKimchiLow, e.alertCoins,
      e.alertIntervalMin, some 10⟩ = loadConfig e ∧
    evalAlert high low st now coin pct =
      evaluate high low 60 st now coin pct :=
  ⟨rfl, rfl, rfl⟩

end KoreanCrypto
